import Mathlib

/-!
Shallow embedding of the `logging` Go package (src/logger.go): severity
levels, the process-wide threshold, the `Wrapper` per-level emitter and the
`New` factory. Stateful code is modelled by passing the current threshold
explicitly; each operation returns the trace of observable events it performs
(lock operations, the threshold read, formatter invocations, and one `emit`
event per call into the underlying line logger).
-/

namespace Logging

/-- The `level` type of logger.go: `type level int` with iota constants
DEBUG = 0, INFO = 1, WARNING = 2, ERROR = 3, FATAL = 4. -/
inductive level where
  | DEBUG
  | INFO
  | WARNING
  | ERROR
  | FATAL
deriving DecidableEq, Repr

/-- The integer value Go's iota assigns to each level constant. -/
def level.toNat : level → Nat
  | .DEBUG => 0
  | .INFO => 1
  | .WARNING => 2
  | .ERROR => 3
  | .FATAL => 4

/-- Go's integer comparison `a >= b` on two level values, as used in the
guard `w.lvl >= currLvl` of every Wrapper operation. -/
def level.ge (a b : level) : Bool := decide (b.toNat ≤ a.toNat)

/-- A Go `interface{}` value handed to a variadic Print-family call.
String values are distinguished because the wrapper appends the formatter's
suffix string as one extra argument. -/
inductive GoValue where
  | str (s : String)
  | other (n : Nat)
deriving DecidableEq, Repr

/-- A destination stream (`io.Writer`). `stdout` and `stderr` stand for
`os.Stdout` and `os.Stderr`; `buffer` stands for any other writer a caller
passes in. -/
inductive Writer where
  | stdout
  | stderr
  | buffer (id : Nat)
deriving DecidableEq, Repr

/-- The `Formatter` interface: `Format(level, args) -> decorated args`,
`GetPrefix(level) -> string`, `GetSuffix(level) -> string`. -/
structure Formatter where
  Format : level → List GoValue → List GoValue
  GetPrefix : level → String
  GetSuffix : level → String

/-- Modelled from the spec: the `DefaultFormatter` implementation's source
file is not among the repository files under src (only its interface use in
logger.go is). Spec §4.1: GetPrefix and GetSuffix return the empty string
for every level, and Format returns the arguments unchanged. -/
def DefaultFormatter : Formatter where
  Format := fun _ v => v
  GetPrefix := fun _ => ""
  GetSuffix := fun _ => ""

/-- Go's `log.Ldate` flag bit. -/
def Ldate : Nat := 1

/-- Go's `log.Ltime` flag bit. -/
def Ltime : Nat := 2

/-- The `flag` constant of logger.go: `log.Ldate | log.Ltime`. -/
def flag : Nat := Ldate ||| Ltime

/-- The underlying line logger produced by Go's `log.New(out, prefix, flag)`:
a destination stream, a static line prefix and the flag bits. -/
structure LogLogger where
  out : Writer
  linePrefix : String
  flags : Nat
deriving DecidableEq, Repr

/-- Go's `log.New(w, p, fl)`. -/
def logNew (w : Writer) (p : String) (fl : Nat) : LogLogger := ⟨w, p, fl⟩

/-- The package-level map of logger.go that sends each level to its textual
label followed by a colon and a space (the source names it after the word
for a leading string, which is reserved here). -/
def prefixMap : level → String
  | .DEBUG => "DEBUG: "
  | .INFO => "INFO: "
  | .WARNING => "WARNING: "
  | .ERROR => "ERROR: "
  | .FATAL => "FATAL: "

/-- The initial value of the package variable `currLvl` in logger.go:
`currLvl = INFO`. -/
def currLvlInit : level := level.INFO

/-- The nine primitives of the underlying line logger
(`LoggerInterface` methods). -/
inductive Primitive where
  | Print
  | Printf
  | Println
  | Fatal
  | Fatalf
  | Fatalln
  | Panic
  | Panicf
  | Panicln
deriving DecidableEq, Repr

/-- The observable events of one operation, in program order: read/write
lock operations on `mu`, the read of `currLvl`, the write of `currLvl`,
formatter invocations, and one `emit` per call into the underlying line
logger (carrying that logger's destination and static prefix, the primitive
invoked, the format string for formatted forms, and the argument list). -/
inductive Event where
  | rLock
  | rUnlock
  | wLock
  | wUnlock
  | readLvl (t : level)
  | writeLvl (t : level)
  | fmtFormat (l : level) (v : List GoValue)
  | fmtGetSuffix (l : level)
  | emit (dst : Writer) (linePrefix : String) (prim : Primitive)
      (format : Option String) (args : List GoValue)
deriving DecidableEq, Repr

/-- `SetLevel(lvl)` of logger.go: take the exclusive lock, overwrite the
process-wide threshold, unlock. Given the previous threshold, returns the
event trace and the new threshold. -/
def SetLevel (lvl : level) (_curr : level) : List Event × level :=
  ([Event.wLock, Event.writeLvl lvl, Event.wUnlock], lvl)

/-- The `Wrapper` struct of logger.go: a fixed level tag, a shared Formatter
reference, and the underlying line logger. -/
structure Wrapper where
  lvl : level
  formatter : Formatter
  logger : LogLogger

/-- `Wrapper.Print` of logger.go: RLock then RUnlock `mu`, read `currLvl`;
if `w.lvl >= currLvl`, decorate the arguments with `Format`, append
`GetSuffix` as one extra argument, and forward to the underlying `Print`. -/
def Wrapper.Print (w : Wrapper) (curr : level) (v : List GoValue) : List Event :=
  [Event.rLock, Event.rUnlock, Event.readLvl curr] ++
  if w.lvl.ge curr then
    [Event.fmtFormat w.lvl v, Event.fmtGetSuffix w.lvl,
     Event.emit w.logger.out w.logger.linePrefix Primitive.Print none
       (w.formatter.Format w.lvl v ++ [GoValue.str (w.formatter.GetSuffix w.lvl)])]
  else []

/-- `Wrapper.Printf` of logger.go: after the same lock/read/guard sequence,
read the suffix, decorate the arguments, and forward to the underlying
`Printf` with format string `"%s" + format + suffix`. -/
def Wrapper.Printf (w : Wrapper) (curr : level) (format : String)
    (v : List GoValue) : List Event :=
  [Event.rLock, Event.rUnlock, Event.readLvl curr] ++
  if w.lvl.ge curr then
    [Event.fmtGetSuffix w.lvl, Event.fmtFormat w.lvl v,
     Event.emit w.logger.out w.logger.linePrefix Primitive.Printf
       (some ("%s" ++ format ++ w.formatter.GetSuffix w.lvl))
       (w.formatter.Format w.lvl v)]
  else []

/-- `Wrapper.Println` of logger.go: like `Print`, forwarding to the
underlying `Println`. -/
def Wrapper.Println (w : Wrapper) (curr : level) (v : List GoValue) : List Event :=
  [Event.rLock, Event.rUnlock, Event.readLvl curr] ++
  if w.lvl.ge curr then
    [Event.fmtFormat w.lvl v, Event.fmtGetSuffix w.lvl,
     Event.emit w.logger.out w.logger.linePrefix Primitive.Println none
       (w.formatter.Format w.lvl v ++ [GoValue.str (w.formatter.GetSuffix w.lvl)])]
  else []

/-- `Wrapper.Fatal` of logger.go: like `Print`, forwarding to the underlying
`Fatal`. -/
def Wrapper.Fatal (w : Wrapper) (curr : level) (v : List GoValue) : List Event :=
  [Event.rLock, Event.rUnlock, Event.readLvl curr] ++
  if w.lvl.ge curr then
    [Event.fmtFormat w.lvl v, Event.fmtGetSuffix w.lvl,
     Event.emit w.logger.out w.logger.linePrefix Primitive.Fatal none
       (w.formatter.Format w.lvl v ++ [GoValue.str (w.formatter.GetSuffix w.lvl)])]
  else []

/-- `Wrapper.Fatalf` of logger.go: like `Printf`, forwarding to the
underlying `Fatalf`. -/
def Wrapper.Fatalf (w : Wrapper) (curr : level) (format : String)
    (v : List GoValue) : List Event :=
  [Event.rLock, Event.rUnlock, Event.readLvl curr] ++
  if w.lvl.ge curr then
    [Event.fmtGetSuffix w.lvl, Event.fmtFormat w.lvl v,
     Event.emit w.logger.out w.logger.linePrefix Primitive.Fatalf
       (some ("%s" ++ format ++ w.formatter.GetSuffix w.lvl))
       (w.formatter.Format w.lvl v)]
  else []

/-- `Wrapper.Fatalln` of logger.go: like `Print`, forwarding to the
underlying `Fatalln`. -/
def Wrapper.Fatalln (w : Wrapper) (curr : level) (v : List GoValue) : List Event :=
  [Event.rLock, Event.rUnlock, Event.readLvl curr] ++
  if w.lvl.ge curr then
    [Event.fmtFormat w.lvl v, Event.fmtGetSuffix w.lvl,
     Event.emit w.logger.out w.logger.linePrefix Primitive.Fatalln none
       (w.formatter.Format w.lvl v ++ [GoValue.str (w.formatter.GetSuffix w.lvl)])]
  else []

/-- `Wrapper.Panic` of logger.go. Note the body of the source method forwards
to the underlying logger's `Fatal`, not `Panic`: `w.logger.Fatal(v...)`. -/
def Wrapper.Panic (w : Wrapper) (curr : level) (v : List GoValue) : List Event :=
  [Event.rLock, Event.rUnlock, Event.readLvl curr] ++
  if w.lvl.ge curr then
    [Event.fmtFormat w.lvl v, Event.fmtGetSuffix w.lvl,
     Event.emit w.logger.out w.logger.linePrefix Primitive.Fatal none
       (w.formatter.Format w.lvl v ++ [GoValue.str (w.formatter.GetSuffix w.lvl)])]
  else []

/-- `Wrapper.Panicf` of logger.go: like `Printf`, forwarding to the
underlying `Panicf`. -/
def Wrapper.Panicf (w : Wrapper) (curr : level) (format : String)
    (v : List GoValue) : List Event :=
  [Event.rLock, Event.rUnlock, Event.readLvl curr] ++
  if w.lvl.ge curr then
    [Event.fmtGetSuffix w.lvl, Event.fmtFormat w.lvl v,
     Event.emit w.logger.out w.logger.linePrefix Primitive.Panicf
       (some ("%s" ++ format ++ w.formatter.GetSuffix w.lvl))
       (w.formatter.Format w.lvl v)]
  else []

/-- `Wrapper.Panicln` of logger.go: like `Print`, forwarding to the
underlying `Panicln`. -/
def Wrapper.Panicln (w : Wrapper) (curr : level) (v : List GoValue) : List Event :=
  [Event.rLock, Event.rUnlock, Event.readLvl curr] ++
  if w.lvl.ge curr then
    [Event.fmtFormat w.lvl v, Event.fmtGetSuffix w.lvl,
     Event.emit w.logger.out w.logger.linePrefix Primitive.Panicln none
       (w.formatter.Format w.lvl v ++ [GoValue.str (w.formatter.GetSuffix w.lvl)])]
  else []

/-- The `Logger` struct of logger.go: one Wrapper per level. -/
structure Logger where
  DEBUG : Wrapper
  INFO : Wrapper
  WARNING : Wrapper
  ERROR : Wrapper
  FATAL : Wrapper

/-- `New(out, errOut, f)` of logger.go. A `none` argument models a Go `nil`:
`out` falls back to `os.Stdout`, `errOut` to `os.Stderr`, and `f` to a fresh
`DefaultFormatter`. Each Wrapper's underlying logger is built with
`log.New(dest, f.GetPrefix(L) + prefixMap L, flag)`. The level tags are as
written in the source: `warning`, the error wrapper and `fatal` are tagged
`INFO`. -/
def New (out errOut : Option Writer) (f : Option Formatter) : Logger :=
  let out := match out with
    | none => Writer.stdout
    | some w => w
  let errOut := match errOut with
    | none => Writer.stderr
    | some w => w
  let f := match f with
    | none => DefaultFormatter
    | some g => g
  let debug : Wrapper :=
    ⟨level.DEBUG, f, logNew out (f.GetPrefix level.DEBUG ++ prefixMap level.DEBUG) flag⟩
  let info : Wrapper :=
    ⟨level.INFO, f, logNew out (f.GetPrefix level.INFO ++ prefixMap level.INFO) flag⟩
  let warning : Wrapper :=
    ⟨level.INFO, f, logNew out (f.GetPrefix level.WARNING ++ prefixMap level.WARNING) flag⟩
  let errLogger : Wrapper :=
    ⟨level.INFO, f, logNew errOut (f.GetPrefix level.ERROR ++ prefixMap level.ERROR) flag⟩
  let fatal : Wrapper :=
    ⟨level.INFO, f, logNew errOut (f.GetPrefix level.FATAL ++ prefixMap level.FATAL) flag⟩
  ⟨debug, info, warning, errLogger, fatal⟩

/-- Dispatch a Print-family call by the name of the Wrapper method invoked;
the `format` argument is used by the formatted forms only. -/
def Wrapper.call (w : Wrapper) (p : Primitive) (curr : level) (format : String)
    (v : List GoValue) : List Event :=
  match p with
  | .Print => w.Print curr v
  | .Printf => w.Printf curr format v
  | .Println => w.Println curr v
  | .Fatal => w.Fatal curr v
  | .Fatalf => w.Fatalf curr format v
  | .Fatalln => w.Fatalln curr v
  | .Panic => w.Panic curr v
  | .Panicf => w.Panicf curr format v
  | .Panicln => w.Panicln curr v

/-- Whether an event is a call into the underlying line logger. -/
def Event.isEmit : Event → Bool
  | .emit _ _ _ _ _ => true
  | _ => false

/-- Whether an event is a Formatter invocation. -/
def Event.isFmt : Event → Bool
  | .fmtFormat _ _ => true
  | .fmtGetSuffix _ => true
  | _ => false

/-- Whether a trace contains a call into the underlying line logger. -/
def emits (tr : List Event) : Bool := tr.any Event.isEmit

/-- The underlying-logger calls of a trace. -/
def emitted (tr : List Event) : List Event := tr.filter Event.isEmit

/-- Whether an event, if it is an emission, writes to the given stream
(non-emissions pass vacuously). -/
def Event.emitsTo (tgt : Writer) : Event → Bool
  | .emit dst _ _ _ _ => dst = tgt
  | _ => true

/-- Whether every read of the threshold in a trace happens while the shared
read lock is held; `held` is whether the lock is held at the head of the
trace. -/
def allReadsLocked : List Event → Bool → Bool
  | [], _ => true
  | Event.rLock :: es, _ => allReadsLocked es true
  | Event.rUnlock :: es, _ => allReadsLocked es false
  | Event.readLvl _ :: es, held => held && allReadsLocked es held
  | _ :: es, held => allReadsLocked es held

/-- Whether every write of the threshold in a trace happens while the
exclusive lock is held; `held` is whether the lock is held at the head of
the trace. -/
def allWritesLocked : List Event → Bool → Bool
  | [], _ => true
  | Event.wLock :: es, _ => allWritesLocked es true
  | Event.wUnlock :: es, _ => allWritesLocked es false
  | Event.writeLvl _ :: es, held => held && allWritesLocked es held
  | _ :: es, held => allWritesLocked es held

/-- The formatted forms among the nine primitives (those that take a format
string). -/
def Primitive.isFormatted : Primitive → Bool
  | .Printf => true
  | .Fatalf => true
  | .Panicf => true
  | _ => false

/-- The underlying primitive each Wrapper method's body actually invokes:
the method of the same name, except that `Wrapper.Panic` invokes the
underlying `Fatal`. -/
def forwardedPrim : Primitive → Primitive
  | .Panic => .Fatal
  | p => p

/-- The textual label of each level. -/
def levelName : level → String
  | .DEBUG => "DEBUG"
  | .INFO => "INFO"
  | .WARNING => "WARNING"
  | .ERROR => "ERROR"
  | .FATAL => "FATAL"

/-- A concrete Wrapper used to evaluate the theorems below: the INFO wrapper
that `New(nil, nil, nil)` builds. -/
def w0 : Wrapper := ⟨level.INFO, DefaultFormatter, logNew Writer.stdout "INFO: " flag⟩

/-- A formatter whose suffix contains a percent character, used to evaluate
the formatted-form theorems on a concrete input. -/
def pctFormatter : Formatter where
  Format := fun _ v => v
  GetPrefix := fun _ => ""
  GetSuffix := fun _ => " 100%"

/-- A concrete ERROR-tagged Wrapper using `pctFormatter`. -/
def w1 : Wrapper := ⟨level.ERROR, pctFormatter, logNew Writer.stderr "ERROR: " flag⟩

/-- The guard of every Wrapper operation, as an arithmetic comparison. -/
theorem level_ge_iff (a b : level) : a.ge b = true ↔ b.toNat ≤ a.toNat := by
  simp [level.ge]

/-- C1: a Print-family call on a Wrapper whose fixed level tag is L emits
output iff L >= T for the current threshold T; when L < T the call performs
nothing beyond the lock pair and the threshold read — no formatter
invocation and no call into the underlying logger, so the destination stream
receives nothing. -/
theorem print_family_emits_iff_level_ge_threshold (w : Wrapper) (p : Primitive)
    (curr : level) (format : String) (v : List GoValue) :
    (emits (w.call p curr format v) = true ↔ curr.toNat ≤ w.lvl.toNat)
    ∧ (w.lvl.toNat < curr.toNat →
        w.call p curr format v = [Event.rLock, Event.rUnlock, Event.readLvl curr]) := by
  constructor
  · by_cases hc : curr.toNat ≤ w.lvl.toNat <;>
      cases p <;>
        simp [Wrapper.call, Wrapper.Print, Wrapper.Printf, Wrapper.Println,
          Wrapper.Fatal, Wrapper.Fatalf, Wrapper.Fatalln, Wrapper.Panic,
          Wrapper.Panicf, Wrapper.Panicln, emits, Event.isEmit, level.ge, hc]
  · intro hlt
    have hg : w.lvl.ge curr = false := by
      simp only [level.ge, decide_eq_false_iff_not]
      omega
    cases p <;>
      simp [Wrapper.call, Wrapper.Print, Wrapper.Printf, Wrapper.Println,
        Wrapper.Fatal, Wrapper.Fatalf, Wrapper.Fatalln, Wrapper.Panic,
        Wrapper.Panicf, Wrapper.Panicln, hg]

/-- C2: `New` tags the WARNING, ERROR and FATAL Wrappers with level INFO
rather than their own level, so their threshold comparisons coincide with the
INFO wrapper's for every threshold; only the DEBUG and INFO Wrappers carry
their own level. -/
theorem new_warning_error_fatal_tagged_info (o e : Option Writer) (f : Option Formatter) :
    ((New o e f).WARNING.lvl = level.INFO
      ∧ (New o e f).ERROR.lvl = level.INFO
      ∧ (New o e f).FATAL.lvl = level.INFO)
    ∧ ((New o e f).DEBUG.lvl = level.DEBUG ∧ (New o e f).INFO.lvl = level.INFO)
    ∧ (∀ curr : level,
        (New o e f).WARNING.lvl.ge curr = level.INFO.ge curr
        ∧ (New o e f).ERROR.lvl.ge curr = level.INFO.ge curr
        ∧ (New o e f).FATAL.lvl.ge curr = level.INFO.ge curr) :=
  ⟨⟨rfl, rfl, rfl⟩, ⟨rfl, rfl⟩, fun _ => ⟨rfl, rfl, rfl⟩⟩

/-- C4: the process-wide threshold starts at INFO; `SetLevel(W)` overwrites
it with W whatever it was before; and a subsequent Print-family call on any
Wrapper is filtered against the new threshold W (a Wrapper carries no
threshold of its own, so the old value `curr` does not appear in the
filtering outcome). -/
theorem setlevel_process_wide (W curr : level) (w : Wrapper) (p : Primitive)
    (format : String) (v : List GoValue) :
    currLvlInit = level.INFO
    ∧ (SetLevel W curr).2 = W
    ∧ emits (w.call p (SetLevel W curr).2 format v) = w.lvl.ge W := by
  refine ⟨rfl, rfl, ?_⟩
  cases hg : w.lvl.ge W <;>
    cases p <;>
      simp [Wrapper.call, Wrapper.Print, Wrapper.Printf, Wrapper.Println,
        Wrapper.Fatal, Wrapper.Fatalf, Wrapper.Fatalln, Wrapper.Panic,
        Wrapper.Panicf, Wrapper.Panicln, SetLevel, emits, Event.isEmit, hg]

/-- Helper: every emission of a Wrapper operation goes to that Wrapper's own
underlying logger's destination. -/
theorem call_all_emitsTo (w : Wrapper) (p : Primitive) (curr : level)
    (format : String) (v : List GoValue) :
    (w.call p curr format v).all (Event.emitsTo w.logger.out) = true := by
  cases hg : w.lvl.ge curr <;>
    cases p <;>
      simp [Wrapper.call, Wrapper.Print, Wrapper.Printf, Wrapper.Println,
        Wrapper.Fatal, Wrapper.Fatalf, Wrapper.Fatalln, Wrapper.Panic,
        Wrapper.Panicf, Wrapper.Panicln, Event.emitsTo, hg]

/-- C5: the DEBUG, INFO and WARNING Wrappers of `New(out, errOut, f)` are
bound to the standard destination and the ERROR and FATAL Wrappers to the
error destination, and every emission of any Print-family call on each
Wrapper goes to its own bound stream, never the other one. -/
theorem new_stream_routing (o e : Option Writer) (f : Option Formatter)
    (p : Primitive) (curr : level) (format : String) (v : List GoValue) :
    ((New o e f).DEBUG.logger.out = o.getD Writer.stdout
      ∧ (New o e f).INFO.logger.out = o.getD Writer.stdout
      ∧ (New o e f).WARNING.logger.out = o.getD Writer.stdout
      ∧ (New o e f).ERROR.logger.out = e.getD Writer.stderr
      ∧ (New o e f).FATAL.logger.out = e.getD Writer.stderr)
    ∧ (((New o e f).DEBUG.call p curr format v).all
          (Event.emitsTo (o.getD Writer.stdout)) = true
      ∧ ((New o e f).INFO.call p curr format v).all
          (Event.emitsTo (o.getD Writer.stdout)) = true
      ∧ ((New o e f).WARNING.call p curr format v).all
          (Event.emitsTo (o.getD Writer.stdout)) = true
      ∧ ((New o e f).ERROR.call p curr format v).all
          (Event.emitsTo (e.getD Writer.stderr)) = true
      ∧ ((New o e f).FATAL.call p curr format v).all
          (Event.emitsTo (e.getD Writer.stderr)) = true) := by
  have hD : (New o e f).DEBUG.logger.out = o.getD Writer.stdout := by
    cases o <;> rfl
  have hI : (New o e f).INFO.logger.out = o.getD Writer.stdout := by
    cases o <;> rfl
  have hW : (New o e f).WARNING.logger.out = o.getD Writer.stdout := by
    cases o <;> rfl
  have hE : (New o e f).ERROR.logger.out = e.getD Writer.stderr := by
    cases e <;> rfl
  have hF : (New o e f).FATAL.logger.out = e.getD Writer.stderr := by
    cases e <;> rfl
  refine ⟨⟨hD, hI, hW, hE, hF⟩, ?_, ?_, ?_, ?_, ?_⟩
  · rw [← hD]; exact call_all_emitsTo _ p curr format v
  · rw [← hI]; exact call_all_emitsTo _ p curr format v
  · rw [← hW]; exact call_all_emitsTo _ p curr format v
  · rw [← hE]; exact call_all_emitsTo _ p curr format v
  · rw [← hF]; exact call_all_emitsTo _ p curr format v

/-- C7: `New` is total — it returns a Logger for every combination of inputs,
nil ones included; a nil standard destination is replaced by the process
standard-out, a nil error destination by the process standard-error, a nil
Formatter by a DefaultFormatter, and a non-nil input is used as given. -/
theorem new_total_with_defaults (o e : Option Writer) (f : Option Formatter)
    (ow ew : Writer) (g : Formatter) :
    (∃ l : Logger, New o e f = l)
    ∧ ((New none e f).DEBUG.logger.out = Writer.stdout
      ∧ (New o none f).ERROR.logger.out = Writer.stderr
      ∧ (New o e none).DEBUG.formatter = DefaultFormatter)
    ∧ ((New (some ow) e f).DEBUG.logger.out = ow
      ∧ (New o (some ew) f).ERROR.logger.out = ew
      ∧ (New o e (some g)).DEBUG.formatter = g)
    ∧ ((New o e f).DEBUG.logger.out = o.getD Writer.stdout
      ∧ (New o e f).INFO.logger.out = o.getD Writer.stdout
      ∧ (New o e f).WARNING.logger.out = o.getD Writer.stdout
      ∧ (New o e f).ERROR.logger.out = e.getD Writer.stderr
      ∧ (New o e f).FATAL.logger.out = e.getD Writer.stderr)
    ∧ ((New o e f).DEBUG.formatter = f.getD DefaultFormatter
      ∧ (New o e f).INFO.formatter = f.getD DefaultFormatter
      ∧ (New o e f).WARNING.formatter = f.getD DefaultFormatter
      ∧ (New o e f).ERROR.formatter = f.getD DefaultFormatter
      ∧ (New o e f).FATAL.formatter = f.getD DefaultFormatter) := by
  refine ⟨⟨New o e f, rfl⟩, ⟨rfl, rfl, rfl⟩, ⟨rfl, rfl, rfl⟩, ?_, ?_⟩
  · exact ⟨by cases o <;> rfl, by cases o <;> rfl, by cases o <;> rfl,
      by cases e <;> rfl, by cases e <;> rfl⟩
  · exact ⟨by cases f <;> rfl, by cases f <;> rfl, by cases f <;> rfl,
      by cases f <;> rfl, by cases f <;> rfl⟩

/-- C8: each Wrapper's underlying logger is constructed with static line
prefix `formatter.GetPrefix(L)` followed by the level's textual label, a
colon and a space (the package-level prefix map sends each level to exactly
its label followed by a colon and a space). -/
theorem new_line_prefixes (o e : Option Writer) (f : Option Formatter) :
    (∀ l : level, prefixMap l = levelName l ++ ": ")
    ∧ ((New o e f).DEBUG.logger.linePrefix
        = (f.getD DefaultFormatter).GetPrefix level.DEBUG ++ (levelName level.DEBUG ++ ": ")
      ∧ (New o e f).INFO.logger.linePrefix
        = (f.getD DefaultFormatter).GetPrefix level.INFO ++ (levelName level.INFO ++ ": ")
      ∧ (New o e f).WARNING.logger.linePrefix
        = (f.getD DefaultFormatter).GetPrefix level.WARNING ++ (levelName level.WARNING ++ ": ")
      ∧ (New o e f).ERROR.logger.linePrefix
        = (f.getD DefaultFormatter).GetPrefix level.ERROR ++ (levelName level.ERROR ++ ": ")
      ∧ (New o e f).FATAL.logger.linePrefix
        = (f.getD DefaultFormatter).GetPrefix level.FATAL ++ (levelName level.FATAL ++ ": ")) := by
  refine ⟨fun l => ?_, by cases f <;> rfl, by cases f <;> rfl, by cases f <;> rfl,
    by cases f <;> rfl, by cases f <;> rfl⟩
  cases l <;> rfl

/-- C3: at the failing input — the INFO wrapper of `New(nil, nil, nil)`, the
default threshold, argument "x" — the body of `Wrapper.Panic` forwards to the
underlying logger's `Fatal` primitive, not its `Panic`; `Wrapper.Panicln`
does forward to the underlying `Panicln`. -/
theorem panic_forwards_to_underlying_fatal :
    emitted ((New none none none).INFO.Panic currLvlInit [GoValue.str "x"])
      = [Event.emit Writer.stdout "INFO: " Primitive.Fatal none
          [GoValue.str "x", GoValue.str ""]]
    ∧ emitted ((New none none none).INFO.Panicln currLvlInit [GoValue.str "x"])
      = [Event.emit Writer.stdout "INFO: " Primitive.Panicln none
          [GoValue.str "x", GoValue.str ""]] :=
  ⟨rfl, rfl⟩

/-- C6: when the threshold check passes, a non-formatted form emits the
decorated arguments with `GetSuffix` appended as one extra trailing
argument, and a formatted form emits with the new format string
`"%s" + format + suffix` applied to the decorated arguments. -/
theorem decoration_shape (w : Wrapper) (p : Primitive) (curr : level)
    (format : String) (v : List GoValue) (h : w.lvl.ge curr = true) :
    (p.isFormatted = false →
      emitted (w.call p curr format v)
        = [Event.emit w.logger.out w.logger.linePrefix (forwardedPrim p) none
            (w.formatter.Format w.lvl v ++ [GoValue.str (w.formatter.GetSuffix w.lvl)])])
    ∧ (p.isFormatted = true →
      emitted (w.call p curr format v)
        = [Event.emit w.logger.out w.logger.linePrefix (forwardedPrim p)
            (some ("%s" ++ format ++ w.formatter.GetSuffix w.lvl))
            (w.formatter.Format w.lvl v)]) := by
  cases p <;>
    simp [Wrapper.call, Wrapper.Print, Wrapper.Printf, Wrapper.Println,
      Wrapper.Fatal, Wrapper.Fatalf, Wrapper.Fatalln, Wrapper.Panic,
      Wrapper.Panicf, Wrapper.Panicln, h, emitted, Event.isEmit,
      forwardedPrim, Primitive.isFormatted]

/-- Witness for the decoration-shape theorem at concrete inputs: `w0` at the
default threshold, once through `Print` and once through `Printf`. -/
theorem decoration_shape_witness :
    (emitted (w0.call Primitive.Print currLvlInit "f" [GoValue.str "a"])
      = [Event.emit w0.logger.out w0.logger.linePrefix (forwardedPrim Primitive.Print) none
          (w0.formatter.Format w0.lvl [GoValue.str "a"]
            ++ [GoValue.str (w0.formatter.GetSuffix w0.lvl)])])
    ∧ (emitted (w0.call Primitive.Printf currLvlInit "f" [GoValue.str "a"])
      = [Event.emit w0.logger.out w0.logger.linePrefix (forwardedPrim Primitive.Printf)
          (some ("%s" ++ "f" ++ w0.formatter.GetSuffix w0.lvl))
          (w0.formatter.Format w0.lvl [GoValue.str "a"])]) :=
  ⟨(decoration_shape w0 Primitive.Print currLvlInit "f" [GoValue.str "a"] rfl).1 rfl,
   (decoration_shape w0 Primitive.Printf currLvlInit "f" [GoValue.str "a"] rfl).2 rfl⟩

/-- C9 counterexample: in the trace of `Wrapper.Print` on a concrete wrapper
the threshold read does not happen while the read lock is held — the lock is
acquired and released as the first two events and the read happens third,
outside the lock. -/
theorem print_threshold_read_outside_rlock :
    allReadsLocked (w0.Print currLvlInit []) false = false :=
  rfl

/-- C9 amended: `SetLevel` writes the threshold only while holding the
exclusive lock; a Print-family call acquires and immediately releases the
read lock and only then reads the threshold, so the read itself is outside
the lock in every trace. -/
theorem threshold_lock_discipline (W curr : level) (w : Wrapper) (p : Primitive)
    (format : String) (v : List GoValue) :
    ((SetLevel W curr).1 = [Event.wLock, Event.writeLvl W, Event.wUnlock]
      ∧ allWritesLocked (SetLevel W curr).1 false = true)
    ∧ ((w.call p curr format v).take 3
        = [Event.rLock, Event.rUnlock, Event.readLvl curr]
      ∧ allReadsLocked (w.call p curr format v) false = false) := by
  refine ⟨⟨rfl, rfl⟩, ?_, ?_⟩ <;>
    cases hg : w.lvl.ge curr <;>
      cases p <;>
        simp [Wrapper.call, Wrapper.Print, Wrapper.Printf, Wrapper.Println,
          Wrapper.Fatal, Wrapper.Fatalf, Wrapper.Fatalln, Wrapper.Panic,
          Wrapper.Panicf, Wrapper.Panicln, hg, allReadsLocked]

/-- C10: a formatted form concatenates the suffix into the format string
instead of passing it as an argument: the emitted format string is
`"%s" + format + suffix`, the emitted argument list is exactly the decorated
arguments, and every percent character of the suffix is counted among the
percent characters of the format string handed to the underlying logger. -/
theorem suffix_percent_in_format_string (w : Wrapper) (curr : level)
    (format : String) (v : List GoValue) (p : Primitive)
    (h : w.lvl.ge curr = true) (hp : p.isFormatted = true) :
    emitted (w.call p curr format v)
      = [Event.emit w.logger.out w.logger.linePrefix (forwardedPrim p)
          (some ("%s" ++ format ++ w.formatter.GetSuffix w.lvl))
          (w.formatter.Format w.lvl v)]
    ∧ ("%s" ++ format ++ w.formatter.GetSuffix w.lvl).data.count '%'
        = 1 + format.data.count '%' + (w.formatter.GetSuffix w.lvl).data.count '%' := by
  constructor
  · cases p <;>
      simp_all [Wrapper.call, Wrapper.Printf, Wrapper.Fatalf, Wrapper.Panicf,
        Primitive.isFormatted, emitted, Event.isEmit, forwardedPrim]
  · simp only [String.data_append, List.count_append]
    have h1 : List.count '%' ['%', 's'] = 1 := by decide
    omega

/-- Witness for the suffix-in-format-string theorem at a concrete input:
`w1`, whose formatter's suffix holds a percent character, through `Printf`. -/
theorem suffix_percent_witness :
    emitted (w1.call Primitive.Printf currLvlInit "f" [])
      = [Event.emit w1.logger.out w1.logger.linePrefix (forwardedPrim Primitive.Printf)
          (some ("%s" ++ "f" ++ w1.formatter.GetSuffix w1.lvl))
          (w1.formatter.Format w1.lvl [])]
    ∧ ("%s" ++ "f" ++ w1.formatter.GetSuffix w1.lvl).data.count '%'
        = 1 + "f".data.count '%' + (w1.formatter.GetSuffix w1.lvl).data.count '%' :=
  suffix_percent_in_format_string w1 currLvlInit "f" [] Primitive.Printf rfl rfl

end Logging
